import Mathlib

/-!
Shallow embedding of the contact-form submission pipeline of the
FullTimePortfolio repository: the Express route (`routes/contact`,
src/unnamed/part_000) and the AWS Lambda handler (src/unnamed/part_001).

External collaborators (the nodemailer transport, JSON.parse, the zod email
format check, the wall clock) are passed in as parameters; everything the
repository itself computes is translated directly from the source.
Times are integer milliseconds (`Nat`); environments map variable names to
`Option String` (`none` = unset). JavaScript truthiness of the values the
code actually tests (strings, numbers, possibly-undefined map lookups) is
made explicit with the `jsTruthy*` helpers.
-/

/-- An environment: `process.env`, a partial map from variable names to
string values (`none` models an unset variable). -/
def Env : Type := String → Option String

/-- The in-memory rate-limit map (`rateLimitMap`): client identifier to
last-accepted timestamp in ms. `none` models an absent entry. -/
def RateMap : Type := String → Option Nat

/-- `Map.prototype.set`: point update of the rate-limit map. -/
def RateMap.set (m : RateMap) (k : String) (v : Nat) : RateMap :=
  fun k2 => if k2 = k then some v else m k2

/-- JS truthiness of a possibly-undefined string (`undefined` and the empty
string are falsy; every other string is truthy). -/
def jsTruthyStr (v : Option String) : Bool :=
  match v with
  | none => false
  | some s => !(s == "")

/-- JS truthiness of a possibly-undefined number (`undefined` and `0` are
falsy). Used for `rateLimitMap.get(ip)`. -/
def jsTruthyNum (v : Option Nat) : Bool :=
  match v with
  | none => false
  | some n => !(n == 0)

/-- JS `v || d` on a possibly-undefined string: the default is taken when
the value is undefined or empty. -/
def jsOr (v : Option String) (d : String) : String :=
  match v with
  | none => d
  | some s => if s == "" then d else s

/-- The longest leading run of decimal digits of a character list. -/
def digitsPrefix : List Char → List Char
  | [] => []
  | c :: cs => if c.isDigit then c :: digitsPrefix cs else []

/-- Numeric value of a list of decimal digits. -/
def digitsToNat (ds : List Char) : Nat :=
  ds.foldl (fun n c => 10 * n + (c.toNat - 48)) 0

/-- JS `parseInt` restricted to what the code feeds it: the value of the
longest leading run of decimal digits, `none` when there is no digit
(NaN). -/
def jsParseInt (s : String) : Option Nat :=
  match digitsPrefix s.data with
  | [] => none
  | ds => some (digitsToNat ds)

/-- `RATE_LIMIT_WINDOW = 10 * 1000` (both variants). -/
def RATE_LIMIT_WINDOW : Nat := 10 * 1000

/-- A raw submission body after JSON decoding: each field either absent or
a string (the shapes the claims exercise). -/
structure RawBody where
  name : Option String
  email : Option String
  message : Option String
deriving DecidableEq

/-- A validated submission (`ContactData` in the Express variant). -/
structure ContactData where
  name : String
  email : String
  message : String
deriving DecidableEq

/-- The JSON bodies the pipeline responds with: `{success:false, error}` or
`{success:true, message}`. -/
inductive RespBody where
  | failure (error : String)
  | success (message : String)
deriving DecidableEq

/-- A `mailOptions` object handed to the transport. `from`/`to` are read
straight from the environment (hence possibly undefined). -/
structure EmailMessage where
  «from» : Option String
  «to» : Option String
  subject : String
  html : String
  replyTo : String
deriving DecidableEq

/-- The HTML body template (both variants, identical text): the fixed
markup with `name`, `email`, `message` (newlines turned into `<br>`) and
the server-generated date string interpolated. -/
def buildHtmlBody (name email message dateStr : String) : String :=
  "\n      <div style=\"font-family: Arial, sans-serif; max-width: 600px; margin: 0 auto;\">\n"
  ++ "        <h2 style=\"color: #333;\">New Contact Form Submission</h2>\n"
  ++ "        <div style=\"background-color: #f8f9fa; padding: 20px; border-radius: 8px; margin: 20px 0;\">\n"
  ++ "          <p><strong>Name:</strong> " ++ name ++ "</p>\n"
  ++ "          <p><strong>Email:</strong> <a href=\"mailto:" ++ email ++ "\">" ++ email ++ "</a></p>\n"
  ++ "          <p><strong>Message:</strong></p>\n"
  ++ "          <div style=\"background-color: white; padding: 15px; border-radius: 4px; border-left: 4px solid #007bff;\">\n"
  ++ "            " ++ message.replace "\n" "<br>" ++ "\n"
  ++ "          </div>\n"
  ++ "        </div>\n"
  ++ "        <div style=\"color: #666; font-size: 12px; margin-top: 30px; padding-top: 20px; border-top: 1px solid #eee;\">\n"
  ++ "          <p>This message was sent from your portfolio contact form on " ++ dateStr ++ ".</p>\n"
  ++ "        </div>\n"
  ++ "      </div>\n    "

/-- The `mailOptions` built before `sendMail` (both variants):
`from`/`to` from the environment, the fixed subject line, the HTML body,
`replyTo` set to the submitter's email. -/
def buildMailOptions (env : Env) (name email message dateStr : String) : EmailMessage :=
  { «from» := env "FROM_EMAIL"
    «to» := env "CONTACT_TO_EMAIL"
    subject := "New portfolio message from " ++ name
    html := buildHtmlBody name email message dateStr
    replyTo := email }

/-- The transporter configuration produced by `createTransporter` (the
function is textually identical in both variants): `secure` iff
`SMTP_PORT === '465'`, port parsed from `SMTP_PORT || '587'`. -/
structure TransporterCfg where
  host : Option String
  port : Option Nat
  secure : Bool
  authUser : Option String
  authPass : Option String
deriving DecidableEq

/-- `createTransporter` (src/unnamed/part_000 lines 39-51 and
src/unnamed/part_001 lines 4-16): reads the SMTP configuration from the
environment. -/
def createTransporter (env : Env) : TransporterCfg :=
  { host := env "SMTP_HOST"
    port := jsParseInt (jsOr (env "SMTP_PORT") "587")
    secure := env "SMTP_PORT" == some "465"
    authUser := env "SMTP_USER"
    authPass := env "SMTP_PASS" }

/-- `requiredEnvVars` (both variants): the variables whose absence makes
the dispatcher refuse to run. -/
def requiredEnvVars : List String :=
  ["SMTP_HOST", "SMTP_PORT", "SMTP_USER", "SMTP_PASS", "CONTACT_TO_EMAIL", "FROM_EMAIL"]

/-- `missingVars = requiredEnvVars.filter(v => !process.env[v])`. -/
def missingVars (env : Env) : List String :=
  requiredEnvVars.filter (fun v => !(jsTruthyStr (env v)))

/-! ## Express variant (src/unnamed/part_000) -/

/-- An HTTP response of the Express route: status code plus JSON body. -/
structure HttpResponse where
  status : Nat
  body : RespBody
deriving DecidableEq

/-- Outcome of one Express request: the response, the rate-limit map after
the request, how many transporters were created, and the list of
`sendMail` calls that were attempted. -/
structure ExpressOutcome where
  resp : HttpResponse
  rateMap : RateMap
  transportersCreated : Nat
  sendAttempts : List EmailMessage

/-- The `rateLimit` middleware (part_000 lines 22-36): look up the last
timestamp for the client ip; if it is truthy and `now - last` is inside
the window, answer 429 and leave the map alone; otherwise store `now` and
fall through (`next()`), signalled by `none`. -/
def rateLimitStep (st : RateMap) (ip : String) (now : Nat) :
    Option HttpResponse × RateMap :=
  let lastRequest := st ip
  if jsTruthyNum lastRequest && decide (now - lastRequest.getD 0 < RATE_LIMIT_WINDOW) then
    (some ⟨429, .failure "Too many requests. Please wait a moment before trying again."⟩, st)
  else
    (none, RateMap.set st ip now)

/-- `contactSchema.safeParse` (part_000 lines 13-17): all three fields
required strings, `name` length in [2,80], `message` length in [10,2000],
`email` accepted by zod's email-format check, which is external and passed
in as `emailOk`. -/
def contactSchemaSafeParse (emailOk : String → Bool) (b : RawBody) : Option ContactData :=
  match b.name, b.email, b.message with
  | some n, some e, some m =>
    if 2 ≤ n.length && n.length ≤ 80 && emailOk e
        && 10 ≤ m.length && m.length ≤ 2000 then
      some ⟨n, e, m⟩
    else
      none
  | _, _, _ => none

/-- The Express `router.post` handler body after the middleware (part_000
lines 54-125): validate, check configuration, create the transporter,
build and send the mail; `sendMail` is the external transport, an
exception modelled as `Except.error`. The rate-limit map is not touched
here. -/
def contactHandler (env : Env) (emailOk : String → Bool)
    (sendMail : EmailMessage → Except String Unit) (dateStr : String)
    (body : RawBody) (st : RateMap) : ExpressOutcome :=
  match contactSchemaSafeParse emailOk body with
  | none =>
    ⟨⟨400, .failure "Invalid form data. Please check your inputs."⟩, st, 0, []⟩
  | some data =>
    if (missingVars env).length > 0 then
      ⟨⟨500, .failure "Email service not configured. Please contact the administrator."⟩, st, 0, []⟩
    else
      let mail := buildMailOptions env data.name data.email data.message dateStr
      match sendMail mail with
      | .ok _ => ⟨⟨200, .success "Message sent successfully"⟩, st, 1, [mail]⟩
      | .error _ =>
        ⟨⟨500, .failure "Failed to send email. Please try again later."⟩, st, 1, [mail]⟩

/-- One full Express request: the `rateLimit` middleware first (it is
mounted before the handler in `router.post('/', rateLimit, ...)`), then
the handler on fall-through. -/
def expressPost (env : Env) (emailOk : String → Bool)
    (sendMail : EmailMessage → Except String Unit) (dateStr : String)
    (st : RateMap) (ip : String) (now : Nat) (body : RawBody) : ExpressOutcome :=
  match rateLimitStep st ip now with
  | (some resp, st2) => ⟨resp, st2, 0, []⟩
  | (none, st2) => contactHandler env emailOk sendMail dateStr body st2

/-! ## Lambda variant (src/unnamed/part_001) -/

/-- An API Gateway event as the handler reads it: method, raw body string
(possibly absent), and `event.requestContext.identity.sourceIp`. -/
structure LambdaEvent where
  httpMethod : String
  body : Option String
  sourceIp : String

/-- A Lambda response body: the empty string (OPTIONS) or a stringified
JSON object. -/
inductive LambdaBody where
  | empty
  | json (b : RespBody)
deriving DecidableEq

/-- A Lambda proxy response. -/
structure LambdaResponse where
  statusCode : Nat
  headers : List (String × String)
  body : LambdaBody
deriving DecidableEq

/-- Outcome of one Lambda invocation: the response, the rate-limit map
after it, the number of transporters created, and the attempted
`sendMail` calls. -/
structure LambdaOutcome where
  resp : LambdaResponse
  rateMap : RateMap
  transportersCreated : Nat
  sendAttempts : List EmailMessage

/-- The CORS `headers` object (part_001 lines 24-29). -/
def corsHeaders (env : Env) : List (String × String) :=
  [("Access-Control-Allow-Origin", jsOr (env "ALLOWED_ORIGIN") "https://arjansubedi.com"),
   ("Access-Control-Allow-Headers", "Content-Type"),
   ("Access-Control-Allow-Methods", "POST, OPTIONS"),
   ("Access-Control-Allow-Credentials", "true")]

/-- The basic validation block of the Lambda handler (part_001 lines
46-88), in source order: presence (JS truthiness) of the three fields,
then name length, then `email.includes('@')`, then message length;
`some err` is the 400 error body of the first failing check. -/
def lambdaValidate (b : RawBody) : Option RespBody :=
  if !(jsTruthyStr b.name) || !(jsTruthyStr b.email) || !(jsTruthyStr b.message) then
    some (.failure "Missing required fields: name, email, message")
  else
    let name := b.name.getD ""
    let email := b.email.getD ""
    let message := b.message.getD ""
    if name.length < 2 || name.length > 80 then
      some (.failure "Name must be between 2 and 80 characters")
    else if !(email.data.contains '@') then
      some (.failure "Please enter a valid email address")
    else if message.length < 10 || message.length > 2000 then
      some (.failure "Message must be between 10 and 2000 characters")
    else
      none

/-- `exports.handler` (part_001 lines 22-177). `parseJson` is the external
`JSON.parse` composed with the destructuring of `{name, email, message}`;
`Except.error` models an exception, which—like a thrown `sendMail`—lands
in the outer catch and yields the generic 500 response. The OPTIONS check
runs before the try block. -/
def handler (env : Env) (parseJson : String → Except String RawBody)
    (sendMail : EmailMessage → Except String Unit) (dateStr : String)
    (event : LambdaEvent) (now : Nat) (st : RateMap) : LambdaOutcome :=
  let headers := corsHeaders env
  if event.httpMethod == "OPTIONS" then
    ⟨⟨200, headers, .empty⟩, st, 0, []⟩
  else
    match parseJson (jsOr event.body "\x7b\x7d") with
    | .error _ =>
      ⟨⟨500, headers, .json (.failure "Failed to send email. Please try again later.")⟩,
        st, 0, []⟩
    | .ok b =>
      match lambdaValidate b with
      | some err => ⟨⟨400, headers, .json err⟩, st, 0, []⟩
      | none =>
        let clientIP := event.sourceIp
        let lastRequest := st clientIP
        if jsTruthyNum lastRequest && decide (now - lastRequest.getD 0 < RATE_LIMIT_WINDOW) then
          ⟨⟨429, headers,
              .json (.failure "Too many requests. Please wait a moment before trying again.")⟩,
            st, 0, []⟩
        else
          let st2 := RateMap.set st clientIP now
          if (missingVars env).length > 0 then
            ⟨⟨500, headers,
                .json (.failure "Email service not configured. Please contact the administrator.")⟩,
              st2, 0, []⟩
          else
            let mail := buildMailOptions env (b.name.getD "") (b.email.getD "")
              (b.message.getD "") dateStr
            match sendMail mail with
            | .ok _ =>
              ⟨⟨200, headers, .json (.success "Message sent successfully")⟩, st2, 1, [mail]⟩
            | .error _ =>
              ⟨⟨500, headers, .json (.failure "Failed to send email. Please try again later.")⟩,
                st2, 1, [mail]⟩

/-- The valid round-trip submission from the spec, as a raw body. -/
def janeBody : RawBody :=
  ⟨some "Jane Doe", some "jane@example.com", some "Hello, this is a test message."⟩

/-! ## Claims -/

/-- With every required environment variable set to a truthy (nonempty) value,
nothing is reported missing. -/
theorem missingVars_nil (env : Env)
    (h : ∀ v ∈ requiredEnvVars, jsTruthyStr (env v) = true) :
    missingVars env = [] := by
  unfold missingVars
  exact List.filter_eq_nil_iff.mpr (fun v hv => by simp [h v hv])

/-- The Express handler body (after the middleware) never touches the
rate-limit map. -/
theorem contactHandler_rateMap (env : Env) (emailOk : String → Bool)
    (sendMail : EmailMessage → Except String Unit) (dateStr : String)
    (body : RawBody) (st : RateMap) :
    (contactHandler env emailOk sendMail dateStr body st).rateMap = st := by
  unfold contactHandler
  cases hsp : contactSchemaSafeParse emailOk body with
  | none => rfl
  | some data =>
    by_cases hms : (missingVars env).length > 0
    · simp [hms]
    · cases hsm : sendMail (buildMailOptions env data.name data.email data.message dateStr) with
      | ok u => simp [hms, hsm]
      | error e => simp [hms, hsm]

/-- The Express handler body never answers 429: only the middleware does. -/
theorem contactHandler_status (env : Env) (emailOk : String → Bool)
    (sendMail : EmailMessage → Except String Unit) (dateStr : String)
    (body : RawBody) (st : RateMap) :
    (contactHandler env emailOk sendMail dateStr body st).resp.status ≠ 429 := by
  unfold contactHandler
  cases hsp : contactSchemaSafeParse emailOk body with
  | none => simp
  | some data =>
    by_cases hms : (missingVars env).length > 0
    · simp [hms]
    · cases hsm : sendMail (buildMailOptions env data.name data.email data.message dateStr) with
      | ok u => simp [hms, hsm]
      | error e => simp [hms, hsm]

/-- C1, counterexample to the claim as stated: a stored timestamp of 0 is
falsy in JavaScript, so with `last = 0` and `now = 5000` we have
`now - last < 10000` and yet the request is admitted, not rejected. -/
theorem C1_counterexample :
    (RateMap.set (fun _ => none) "1.2.3.4" 0) "1.2.3.4" = some 0
    ∧ 5000 - 0 < 10000
    ∧ (rateLimitStep (RateMap.set (fun _ => none) "1.2.3.4" 0) "1.2.3.4" 5000).1 = none :=
  ⟨by decide, by decide, by decide⟩

/-- C1 (amended): for any entry with a nonzero stored timestamp `last`, a
request at `now` is rejected with 429 and the map left alone exactly when
`now - last < 10000`; otherwise it is admitted and the entry overwritten
with `now`. -/
theorem C1_fixed_window (st : RateMap) (ip : String) (now last : Nat)
    (hlast : st ip = some last) (hpos : last ≠ 0) :
    (now - last < 10000 →
      rateLimitStep st ip now =
        (some ⟨429, .failure "Too many requests. Please wait a moment before trying again."⟩, st))
    ∧ (10000 ≤ now - last →
      rateLimitStep st ip now = (none, RateMap.set st ip now)) := by
  unfold rateLimitStep
  rw [hlast]
  simp [jsTruthyNum, hpos, RATE_LIMIT_WINDOW]

/-- C1 witness: after an admit at t = 5, a request at t + 9999 = 10004 is
rejected and a request at t + 10000 = 10005 is admitted. -/
theorem C1_witness :
    (rateLimitStep (RateMap.set (fun _ => none) "1.2.3.4" 5) "1.2.3.4" 10004 =
      (some ⟨429, .failure "Too many requests. Please wait a moment before trying again."⟩,
        RateMap.set (fun _ => none) "1.2.3.4" 5))
    ∧ (rateLimitStep (RateMap.set (fun _ => none) "1.2.3.4" 5) "1.2.3.4" 10005 =
      (none, RateMap.set (RateMap.set (fun _ => none) "1.2.3.4" 5) "1.2.3.4" 10005)) :=
  ⟨(C1_fixed_window _ "1.2.3.4" 10004 5 (by decide) (by decide)).1 (by decide),
   (C1_fixed_window _ "1.2.3.4" 10005 5 (by decide) (by decide)).2 (by decide)⟩

/-- C2, counterexample to the claim as stated: in the Express variant a
submission that fails validation (name of length 1, status 400) still
updates the rate-limit map entry of its client, because the rate limiter
is middleware mounted before the handler. -/
theorem C2_counterexample :
    (expressPost (fun _ => none) (fun _ => true) (fun _ => .ok ()) "d"
        (fun _ => none) "1.2.3.4" 42 ⟨some "x", some "a@b.com", some "valid message!!"⟩).resp.status
      = 400
    ∧ (expressPost (fun _ => none) (fun _ => true) (fun _ => .ok ()) "d"
        (fun _ => none) "1.2.3.4" 42
        ⟨some "x", some "a@b.com", some "valid message!!"⟩).rateMap "1.2.3.4" = some 42
    ∧ (fun _ => none : RateMap) "1.2.3.4" = none :=
  ⟨by decide, by decide, rfl⟩

/-- C2 (amended): in the Lambda variant the validator runs before the rate
limiter and a failing submission leaves the map unchanged; in the Express
variant the rate limiter runs first, its rejection short-circuits the
handler, and a submission failing validation still overwrites the map
entry; in both variants the dispatcher is reached only when every earlier
stage succeeded. -/
theorem C2_stage_order :
    (∀ (env : Env) (parseJson : String → Except String RawBody)
        (sendMail : EmailMessage → Except String Unit) (dateStr : String)
        (event : LambdaEvent) (now : Nat) (st : RateMap) (b : RawBody) (err : RespBody),
      event.httpMethod ≠ "OPTIONS" →
      parseJson (jsOr event.body "\x7b\x7d") = .ok b →
      lambdaValidate b = some err →
      handler env parseJson sendMail dateStr event now st =
        ⟨⟨400, corsHeaders env, .json err⟩, st, 0, []⟩)
    ∧ (∀ (env : Env) (emailOk : String → Bool)
        (sendMail : EmailMessage → Except String Unit) (dateStr : String)
        (st : RateMap) (ip : String) (now : Nat) (body : RawBody) (resp : HttpResponse),
      (rateLimitStep st ip now).1 = some resp →
      expressPost env emailOk sendMail dateStr st ip now body = ⟨resp, st, 0, []⟩)
    ∧ (∀ (env : Env) (emailOk : String → Bool)
        (sendMail : EmailMessage → Except String Unit) (dateStr : String)
        (st : RateMap) (ip : String) (now : Nat) (body : RawBody),
      (rateLimitStep st ip now).1 = none →
      contactSchemaSafeParse emailOk body = none →
      expressPost env emailOk sendMail dateStr st ip now body =
        ⟨⟨400, .failure "Invalid form data. Please check your inputs."⟩,
          RateMap.set st ip now, 0, []⟩)
    ∧ (∀ (env : Env) (emailOk : String → Bool)
        (sendMail : EmailMessage → Except String Unit) (dateStr : String)
        (st : RateMap) (ip : String) (now : Nat) (body : RawBody),
      (expressPost env emailOk sendMail dateStr st ip now body).sendAttempts ≠ [] →
      (rateLimitStep st ip now).1 = none
      ∧ contactSchemaSafeParse emailOk body ≠ none
      ∧ missingVars env = [])
    ∧ (∀ (env : Env) (parseJson : String → Except String RawBody)
        (sendMail : EmailMessage → Except String Unit) (dateStr : String)
        (event : LambdaEvent) (now : Nat) (st : RateMap),
      (handler env parseJson sendMail dateStr event now st).sendAttempts ≠ [] →
      event.httpMethod ≠ "OPTIONS"
      ∧ (∃ b, parseJson (jsOr event.body "\x7b\x7d") = .ok b ∧ lambdaValidate b = none)
      ∧ (jsTruthyNum (st event.sourceIp)
          && decide (now - (st event.sourceIp).getD 0 < RATE_LIMIT_WINDOW)) = false
      ∧ missingVars env = []) := by
  refine ⟨?_, ?_, ?_, ?_, ?_⟩
  · intro env parseJson sendMail dateStr event now st b err hm hp hv
    unfold handler
    simp [hm, hp, hv]
  · intro env emailOk sendMail dateStr st ip now body resp h
    unfold expressPost
    unfold rateLimitStep at h ⊢
    by_cases hc : (jsTruthyNum (st ip) && decide (now - (st ip).getD 0 < RATE_LIMIT_WINDOW)) = true
    · simp only [hc, if_true] at h ⊢
      obtain rfl := Option.some.inj h
      rfl
    · rw [Bool.not_eq_true] at hc
      simp [hc] at h
  · intro env emailOk sendMail dateStr st ip now body h hval
    unfold expressPost
    unfold rateLimitStep at h ⊢
    by_cases hc : (jsTruthyNum (st ip) && decide (now - (st ip).getD 0 < RATE_LIMIT_WINDOW)) = true
    · simp [hc] at h
    · rw [Bool.not_eq_true] at hc
      simp only [hc, Bool.false_eq_true, if_false]
      unfold contactHandler
      rw [hval]
  · intro env emailOk sendMail dateStr st ip now body h
    unfold expressPost rateLimitStep at h
    by_cases hc : (jsTruthyNum (st ip) && decide (now - (st ip).getD 0 < RATE_LIMIT_WINDOW)) = true
    · simp [hc] at h
    · rw [Bool.not_eq_true] at hc
      simp only [hc, Bool.false_eq_true, if_false] at h
      have h1 : (rateLimitStep st ip now).1 = none := by
        unfold rateLimitStep
        simp [hc]
      refine ⟨h1, ?_⟩
      unfold contactHandler at h
      cases hsp : contactSchemaSafeParse emailOk body with
      | none => simp only [hsp] at h; simp at h
      | some data =>
        simp only [hsp] at h
        refine ⟨by simp [hsp], ?_⟩
        by_cases hms : (missingVars env).length > 0
        · simp only [if_pos hms] at h; simp at h
        · exact List.eq_nil_of_length_eq_zero (Nat.eq_zero_of_not_pos hms)
  · intro env parseJson sendMail dateStr event now st h
    unfold handler at h
    by_cases hopt : (event.httpMethod == "OPTIONS") = true
    · simp [hopt] at h
    · rw [Bool.not_eq_true] at hopt
      simp only [hopt, Bool.false_eq_true, if_false] at h
      refine ⟨by simpa using hopt, ?_⟩
      cases hpj : parseJson (jsOr event.body "\x7b\x7d") with
      | error e => simp only [hpj] at h; simp at h
      | ok b =>
        simp only [hpj] at h
        cases hv : lambdaValidate b with
        | some err => simp only [hv] at h; simp at h
        | none =>
          simp only [hv] at h
          refine ⟨⟨b, rfl, hv⟩, ?_⟩
          by_cases hc : (jsTruthyNum (st event.sourceIp)
              && decide (now - (st event.sourceIp).getD 0 < RATE_LIMIT_WINDOW)) = true
          · simp [hc] at h
          · rw [Bool.not_eq_true] at hc
            simp only [hc, Bool.false_eq_true, if_false] at h
            refine ⟨hc, ?_⟩
            by_cases hms : (missingVars env).length > 0
            · simp only [if_pos hms] at h; simp at h
            · exact List.eq_nil_of_length_eq_zero (Nat.eq_zero_of_not_pos hms)

/-- C2 witness: a Lambda submission with an empty name is answered 400
with the map untouched, and a rate-limited Express request is answered 429
without reaching the handler. -/
theorem C2_witness :
    handler (fun _ => none) (fun _ => .ok ⟨some "", none, none⟩) (fun _ => .ok ()) "d"
        ⟨"POST", some "x", "1.2.3.4"⟩ 0 (fun _ => none) =
      ⟨⟨400, corsHeaders (fun _ => none),
          .json (.failure "Missing required fields: name, email, message")⟩,
        (fun _ => none), 0, []⟩
    ∧ expressPost (fun _ => none) (fun _ => true) (fun _ => .ok ()) "d"
        (RateMap.set (fun _ => none) "1.2.3.4" 5) "1.2.3.4" 9000 janeBody =
      ⟨⟨429, .failure "Too many requests. Please wait a moment before trying again."⟩,
        RateMap.set (fun _ => none) "1.2.3.4" 5, 0, []⟩ :=
  ⟨(C2_stage_order).1 (fun _ => none) (fun _ => .ok ⟨some "", none, none⟩) (fun _ => .ok ()) "d"
      ⟨"POST", some "x", "1.2.3.4"⟩ 0 (fun _ => none) ⟨some "", none, none⟩
      (.failure "Missing required fields: name, email, message") (by decide) rfl (by decide),
   (C2_stage_order).2.1 (fun _ => none) (fun _ => true) (fun _ => .ok ()) "d"
      (RateMap.set (fun _ => none) "1.2.3.4" 5) "1.2.3.4" 9000 janeBody
      ⟨429, .failure "Too many requests. Please wait a moment before trying again."⟩ (by decide)⟩

/-- C3: with complete configuration, a fresh rate-limit entry and a
succeeding transport, the Jane Doe submission yields 200 with
`Message sent successfully` in both variants, and exactly one email is
attempted, with `replyTo` the submitter address and a subject containing
`Jane Doe`. -/
theorem C3_round_trip (env : Env) (emailOk : String → Bool)
    (sendMail : EmailMessage → Except String Unit) (dateStr : String)
    (parseJson : String → Except String RawBody)
    (st : RateMap) (ip : String) (now : Nat) (event : LambdaEvent)
    (hcfg : ∀ v ∈ requiredEnvVars, jsTruthyStr (env v) = true)
    (hsend : ∀ m, sendMail m = .ok ())
    (he : emailOk "jane@example.com" = true)
    (hfresh : st ip = none)
    (hm : event.httpMethod ≠ "OPTIONS")
    (hp : parseJson (jsOr event.body "\x7b\x7d") = .ok janeBody)
    (hfresh2 : st event.sourceIp = none) :
    (∃ m : EmailMessage,
      expressPost env emailOk sendMail dateStr st ip now janeBody =
        ⟨⟨200, .success "Message sent successfully"⟩, RateMap.set st ip now, 1, [m]⟩
      ∧ m.replyTo = "jane@example.com"
      ∧ ∃ a c, m.subject = a ++ "Jane Doe" ++ c)
    ∧ (∃ m : EmailMessage,
      handler env parseJson sendMail dateStr event now st =
        ⟨⟨200, corsHeaders env, .json (.success "Message sent successfully")⟩,
          RateMap.set st event.sourceIp now, 1, [m]⟩
      ∧ m.replyTo = "jane@example.com"
      ∧ ∃ a c, m.subject = a ++ "Jane Doe" ++ c) := by
  have hnil : missingVars env = [] := missingVars_nil env hcfg
  have hval : contactSchemaSafeParse emailOk janeBody
      = some ⟨"Jane Doe", "jane@example.com", "Hello, this is a test message."⟩ := by
    unfold contactSchemaSafeParse janeBody
    simp only [he]
    decide
  have hv2 : lambdaValidate janeBody = none := by decide
  constructor
  · refine ⟨buildMailOptions env "Jane Doe" "jane@example.com"
      "Hello, this is a test message." dateStr, ?_, rfl, "New portfolio message from ", "",
      by simp [buildMailOptions]⟩
    unfold expressPost rateLimitStep
    simp only [hfresh, jsTruthyNum, Bool.false_and, Bool.false_eq_true, if_false]
    unfold contactHandler
    rw [hval]
    simp [hnil, hsend]
  · refine ⟨buildMailOptions env "Jane Doe" "jane@example.com"
      "Hello, this is a test message." dateStr, ?_, rfl, "New portfolio message from ", "",
      by simp [buildMailOptions]⟩
    unfold handler
    simp only [hp, hv2, hfresh2, jsTruthyNum, hnil, hsend]
    simp [hm, hnil, hsend, jsTruthyNum, hfresh2, hv2]
    rfl

/-- C3 witness: the Express round trip at a concrete environment, clock
and transport. -/
theorem C3_witness :
    ∃ m : EmailMessage,
      expressPost (fun _ => some "v") (fun _ => true) (fun _ => .ok ()) "d"
          (fun _ => none) "1.2.3.4" 42 janeBody =
        ⟨⟨200, .success "Message sent successfully"⟩,
          RateMap.set (fun _ => none) "1.2.3.4" 42, 1, [m]⟩
      ∧ m.replyTo = "jane@example.com"
      ∧ ∃ a c, m.subject = a ++ "Jane Doe" ++ c :=
  (C3_round_trip (fun _ => some "v") (fun _ => true) (fun _ => .ok ()) "d"
    (fun _ => .ok janeBody) (fun _ => none) "1.2.3.4" 42 ⟨"POST", some "x", "9.9.9.9"⟩
    (fun _ _ => rfl) (fun _ => rfl) rfl rfl (by decide) rfl rfl).1

/-- C4: with every required environment variable absent, a validated and
admitted submission is answered 500 with the configuration-error message
in both variants, no transporter is created and no send is attempted. -/
theorem C4_missing_config (env : Env) (emailOk : String → Bool)
    (sendMail : EmailMessage → Except String Unit) (dateStr : String)
    (parseJson : String → Except String RawBody)
    (st : RateMap) (ip : String) (now : Nat) (body : RawBody) (data : ContactData)
    (event : LambdaEvent) (b : RawBody)
    (habs : ∀ v ∈ requiredEnvVars, env v = none)
    (hval : contactSchemaSafeParse emailOk body = some data)
    (hpass : (jsTruthyNum (st ip) && decide (now - (st ip).getD 0 < RATE_LIMIT_WINDOW)) = false)
    (hm : event.httpMethod ≠ "OPTIONS")
    (hp : parseJson (jsOr event.body "\x7b\x7d") = .ok b)
    (hv2 : lambdaValidate b = none)
    (hpass2 : (jsTruthyNum (st event.sourceIp)
      && decide (now - (st event.sourceIp).getD 0 < RATE_LIMIT_WINDOW)) = false) :
    expressPost env emailOk sendMail dateStr st ip now body =
      ⟨⟨500, .failure "Email service not configured. Please contact the administrator."⟩,
        RateMap.set st ip now, 0, []⟩
    ∧ handler env parseJson sendMail dateStr event now st =
      ⟨⟨500, corsHeaders env,
          .json (.failure "Email service not configured. Please contact the administrator.")⟩,
        RateMap.set st event.sourceIp now, 0, []⟩ := by
  have hmiss : missingVars env = requiredEnvVars := by
    unfold missingVars
    refine List.filter_eq_self.mpr (fun v hv => by simp [habs v hv, jsTruthyStr])
  constructor
  · unfold expressPost rateLimitStep
    simp only [hpass, Bool.false_eq_true, if_false]
    unfold contactHandler
    rw [hval]
    simp [hmiss, requiredEnvVars]
  · unfold handler
    simp [hm, hp, hv2, hpass2, hmiss, requiredEnvVars]

/-- C4 witness: both variants at the all-absent environment and a concrete
submission. -/
theorem C4_witness :
    expressPost (fun _ => none) (fun _ => true) (fun _ => .ok ()) "d"
        (fun _ => none) "1.2.3.4" 42 janeBody =
      ⟨⟨500, .failure "Email service not configured. Please contact the administrator."⟩,
        RateMap.set (fun _ => none) "1.2.3.4" 42, 0, []⟩
    ∧ handler (fun _ => none) (fun _ => .ok janeBody) (fun _ => .ok ()) "d"
        ⟨"POST", some "x", "9.9.9.9"⟩ 42 (fun _ => none) =
      ⟨⟨500, corsHeaders (fun _ => none),
          .json (.failure "Email service not configured. Please contact the administrator.")⟩,
        RateMap.set (fun _ => none) "9.9.9.9" 42, 0, []⟩ :=
  C4_missing_config (fun _ => none) (fun _ => true) (fun _ => .ok ()) "d"
    (fun _ => .ok janeBody) (fun _ => none) "1.2.3.4" 42 janeBody
    ⟨"Jane Doe", "jane@example.com", "Hello, this is a test message."⟩
    ⟨"POST", some "x", "9.9.9.9"⟩ janeBody
    (fun _ _ => rfl) (by decide) (by decide) (by decide) rfl (by decide) (by decide)

/-- C5: with complete configuration, if the transport throws (any
exception text whatsoever), a valid admitted submission is answered 500
with the fixed generic message in both variants; the response body is the
same constant for every exception, so the exception text is never
surfaced. -/
theorem C5_transport_failure (env : Env) (emailOk : String → Bool)
    (sendMail : EmailMessage → Except String Unit) (etext : EmailMessage → String)
    (dateStr : String) (parseJson : String → Except String RawBody)
    (st : RateMap) (ip : String) (now : Nat) (body : RawBody) (data : ContactData)
    (event : LambdaEvent) (b : RawBody)
    (hcfg : ∀ v ∈ requiredEnvVars, jsTruthyStr (env v) = true)
    (hsend : ∀ m, sendMail m = .error (etext m))
    (hval : contactSchemaSafeParse emailOk body = some data)
    (hpass : (jsTruthyNum (st ip) && decide (now - (st ip).getD 0 < RATE_LIMIT_WINDOW)) = false)
    (hm : event.httpMethod ≠ "OPTIONS")
    (hp : parseJson (jsOr event.body "\x7b\x7d") = .ok b)
    (hv2 : lambdaValidate b = none)
    (hpass2 : (jsTruthyNum (st event.sourceIp)
      && decide (now - (st event.sourceIp).getD 0 < RATE_LIMIT_WINDOW)) = false) :
    expressPost env emailOk sendMail dateStr st ip now body =
      ⟨⟨500, .failure "Failed to send email. Please try again later."⟩,
        RateMap.set st ip now, 1,
        [buildMailOptions env data.name data.email data.message dateStr]⟩
    ∧ handler env parseJson sendMail dateStr event now st =
      ⟨⟨500, corsHeaders env, .json (.failure "Failed to send email. Please try again later.")⟩,
        RateMap.set st event.sourceIp now, 1,
        [buildMailOptions env (b.name.getD "") (b.email.getD "") (b.message.getD "") dateStr]⟩ := by
  have hnil : missingVars env = [] := missingVars_nil env hcfg
  constructor
  · unfold expressPost rateLimitStep
    simp only [hpass, Bool.false_eq_true, if_false]
    unfold contactHandler
    rw [hval]
    simp [hnil, hsend]
  · unfold handler
    simp [hm, hp, hv2, hpass2, hnil, hsend]

/-- C5 witness: the Express pipeline with a transport throwing `boom`. -/
theorem C5_witness :
    expressPost (fun _ => some "v") (fun _ => true) (fun _ => .error "boom") "d"
        (fun _ => none) "1.2.3.4" 42 janeBody =
      ⟨⟨500, .failure "Failed to send email. Please try again later."⟩,
        RateMap.set (fun _ => none) "1.2.3.4" 42, 1,
        [buildMailOptions (fun _ => some "v") "Jane Doe" "jane@example.com"
          "Hello, this is a test message." "d"]⟩ :=
  (C5_transport_failure (fun _ => some "v") (fun _ => true) (fun _ => .error "boom")
    (fun _ => "boom") "d" (fun _ => .ok janeBody) (fun _ => none) "1.2.3.4" 42 janeBody
    ⟨"Jane Doe", "jane@example.com", "Hello, this is a test message."⟩
    ⟨"POST", some "x", "9.9.9.9"⟩ janeBody
    (fun _ _ => rfl) (fun _ => rfl) (by decide) (by decide) (by decide) rfl (by decide)
    (by decide)).1

/-- C6, counterexample to the claim as stated: a zero-length name in the
Lambda variant produces the missing-fields message, not a message naming
the name-length constraint, and the Express variant answers a length-1
name with the generic invalid-form message. -/
theorem C6_counterexample :
    (handler (fun _ => some "v") (fun _ => .ok ⟨some "", some "a@b.com", some "valid message!!"⟩)
        (fun _ => .ok ()) "d" ⟨"POST", some "x", "1.2.3.4"⟩ 0 (fun _ => none)).resp =
      ⟨400, corsHeaders (fun _ => some "v"),
        .json (.failure "Missing required fields: name, email, message")⟩
    ∧ (contactHandler (fun _ => some "v") (fun _ => true) (fun _ => .ok ()) "d"
        ⟨some "x", some "a@b.com", some "valid message!!"⟩ (fun _ => none)).resp =
      ⟨400, .failure "Invalid form data. Please check your inputs."⟩ :=
  ⟨by decide, by decide⟩

/-- C6 (amended): a name of length < 2 or > 80 always fails validation
with status 400; the Express variant answers the generic invalid-form
message, while the Lambda variant names the name-length constraint exactly
when all three fields are nonempty and reports missing fields for a
zero-length name. -/
theorem C6_name_length :
    (∀ (env : Env) (emailOk : String → Bool)
        (sendMail : EmailMessage → Except String Unit) (dateStr : String)
        (b : RawBody) (st : RateMap) (n : String),
      b.name = some n → (n.length < 2 ∨ 80 < n.length) →
      (contactHandler env emailOk sendMail dateStr b st).resp =
        ⟨400, .failure "Invalid form data. Please check your inputs."⟩)
    ∧ (∀ (b : RawBody) (n : String), b.name = some n → (n.length < 2 ∨ 80 < n.length) →
      (∃ e, lambdaValidate b = some (.failure e))
      ∧ ((jsTruthyStr b.name && jsTruthyStr b.email && jsTruthyStr b.message) = true →
          lambdaValidate b = some (.failure "Name must be between 2 and 80 characters"))
      ∧ (n = "" →
          lambdaValidate b = some (.failure "Missing required fields: name, email, message")))
    ∧ (∀ (env : Env) (parseJson : String → Except String RawBody)
        (sendMail : EmailMessage → Except String Unit) (dateStr : String)
        (event : LambdaEvent) (now : Nat) (st : RateMap) (b : RawBody) (err : RespBody),
      event.httpMethod ≠ "OPTIONS" →
      parseJson (jsOr event.body "\x7b\x7d") = .ok b →
      lambdaValidate b = some err →
      (handler env parseJson sendMail dateStr event now st).resp =
        ⟨400, corsHeaders env, .json err⟩) := by
  refine ⟨?_, ?_, ?_⟩
  · intro env emailOk sendMail dateStr b st n hb hlen
    have hsp : contactSchemaSafeParse emailOk b = none := by
      unfold contactSchemaSafeParse
      rw [hb]
      cases hbe : b.email with
      | none => rfl
      | some e =>
        cases hbm : b.message with
        | none => rfl
        | some m =>
          rcases hlen with hl | hl
          · have h2 : decide (2 ≤ n.length) = false := by simp; omega
            simp [h2]
          · have h2 : decide (n.length ≤ 80) = false := by simp; omega
            simp [h2]
    unfold contactHandler
    simp [hsp]
  · intro b n hb hlen
    have hlenb : (decide (n.length < 2) || decide (n.length > 80)) = true := by
      rcases hlen with hl | hl
      · simp only [Bool.or_eq_true, decide_eq_true_eq]
        exact Or.inl hl
      · simp only [Bool.or_eq_true, decide_eq_true_eq]
        exact Or.inr hl
    by_cases htr : (jsTruthyStr b.name && jsTruthyStr b.email && jsTruthyStr b.message) = true
    · have hnm : lambdaValidate b = some (.failure "Name must be between 2 and 80 characters") := by
        unfold lambdaValidate
        have h1 : ((!(jsTruthyStr b.name) || !(jsTruthyStr b.email)) || !(jsTruthyStr b.message))
            = false := by
          simp only [Bool.and_eq_true] at htr
          simp [htr.1.1, htr.1.2, htr.2]
        rw [h1]
        simp only [Bool.false_eq_true, if_false]
        rw [hb]
        simp only [Option.getD_some]
        simp [hlenb]
      exact ⟨⟨_, hnm⟩, fun _ => hnm, fun hempty => by
        rw [hempty] at hb
        rw [Bool.and_eq_true, Bool.and_eq_true] at htr
        simp [jsTruthyStr, hb] at htr⟩
    · rw [Bool.not_eq_true] at htr
      have hmiss : lambdaValidate b
          = some (.failure "Missing required fields: name, email, message") := by
        unfold lambdaValidate
        have h1 : ((!(jsTruthyStr b.name) || !(jsTruthyStr b.email)) || !(jsTruthyStr b.message))
            = true := by
          rw [Bool.or_eq_true, Bool.or_eq_true]
          rcases Bool.and_eq_false_iff.mp htr with h | h
          · rcases Bool.and_eq_false_iff.mp h with h2 | h2
            · exact Or.inl (Or.inl (by simp [h2]))
            · exact Or.inl (Or.inr (by simp [h2]))
          · exact Or.inr (by simp [h])
        rw [h1]
        simp
      exact ⟨⟨_, hmiss⟩, fun htr2 => absurd htr2 (by simp [htr]), fun _ => hmiss⟩
  · intro env parseJson sendMail dateStr event now st b err hm hp hv
    unfold handler
    simp [hm, hp, hv]

/-- C6 witness: the two variants at a length-1 name. -/
theorem C6_witness :
    (contactHandler (fun _ => none) (fun _ => true) (fun _ => .ok ()) "d"
        ⟨some "x", some "a@b.com", some "valid message!!"⟩ (fun _ => none)).resp =
      ⟨400, .failure "Invalid form data. Please check your inputs."⟩
    ∧ lambdaValidate ⟨some "x", some "a@b.com", some "valid message!!"⟩ =
      some (.failure "Name must be between 2 and 80 characters") :=
  ⟨(C6_name_length).1 (fun _ => none) (fun _ => true) (fun _ => .ok ()) "d"
      ⟨some "x", some "a@b.com", some "valid message!!"⟩ (fun _ => none) "x" rfl
      (Or.inl (by decide)),
   ((C6_name_length).2.1 ⟨some "x", some "a@b.com", some "valid message!!"⟩ "x" rfl
      (Or.inl (by decide))).2.1 (by decide)⟩

/-- C7: a 429 rejection leaves the rate-limit map exactly as it was, and
no request ever modifies the entry of any identifier other than its own,
in either variant. -/
theorem C7_reject_frame (env : Env) (emailOk : String → Bool)
    (sendMail : EmailMessage → Except String Unit) (dateStr : String)
    (parseJson : String → Except String RawBody)
    (st : RateMap) (ip : String) (now : Nat) (body : RawBody) (event : LambdaEvent) :
    ((expressPost env emailOk sendMail dateStr st ip now body).resp.status = 429 →
      (expressPost env emailOk sendMail dateStr st ip now body).rateMap = st)
    ∧ (∀ id2, id2 ≠ ip →
      (expressPost env emailOk sendMail dateStr st ip now body).rateMap id2 = st id2)
    ∧ ((handler env parseJson sendMail dateStr event now st).resp.statusCode = 429 →
      (handler env parseJson sendMail dateStr event now st).rateMap = st)
    ∧ (∀ id2, id2 ≠ event.sourceIp →
      (handler env parseJson sendMail dateStr event now st).rateMap id2 = st id2) := by
  have hset : ∀ (m : RateMap) (k : String) (v : Nat) (k2 : String), k2 ≠ k →
      RateMap.set m k v k2 = m k2 := by
    intro m k v k2 hne
    unfold RateMap.set
    rw [if_neg hne]
  have hexp : (expressPost env emailOk sendMail dateStr st ip now body).rateMap = st
      ∨ ((expressPost env emailOk sendMail dateStr st ip now body).rateMap
          = RateMap.set st ip now
        ∧ (expressPost env emailOk sendMail dateStr st ip now body).resp.status ≠ 429) := by
    unfold expressPost rateLimitStep
    by_cases hc : (jsTruthyNum (st ip) && decide (now - (st ip).getD 0 < RATE_LIMIT_WINDOW)) = true
    · exact Or.inl (by simp [hc])
    · rw [Bool.not_eq_true] at hc
      refine Or.inr ⟨?_, ?_⟩
      · simp only [hc, Bool.false_eq_true, if_false]
        exact contactHandler_rateMap env emailOk sendMail dateStr body (RateMap.set st ip now)
      · simp only [hc, Bool.false_eq_true, if_false]
        exact contactHandler_status env emailOk sendMail dateStr body (RateMap.set st ip now)
  have hlam : (handler env parseJson sendMail dateStr event now st).rateMap = st
      ∨ ((handler env parseJson sendMail dateStr event now st).rateMap
          = RateMap.set st event.sourceIp now
        ∧ (handler env parseJson sendMail dateStr event now st).resp.statusCode ≠ 429) := by
    unfold handler
    by_cases hopt : (event.httpMethod == "OPTIONS") = true
    · exact Or.inl (by simp [hopt])
    · rw [Bool.not_eq_true] at hopt
      cases hpj : parseJson (jsOr event.body "\x7b\x7d") with
      | error e => exact Or.inl (by simp [hopt, hpj])
      | ok b =>
        cases hv : lambdaValidate b with
        | some err => exact Or.inl (by simp [hopt, hpj, hv])
        | none =>
          by_cases hc : (jsTruthyNum (st event.sourceIp)
              && decide (now - (st event.sourceIp).getD 0 < RATE_LIMIT_WINDOW)) = true
          · exact Or.inl (by simp [hopt, hpj, hv, hc])
          · rw [Bool.not_eq_true] at hc
            by_cases hms : (missingVars env).length > 0
            · exact Or.inr ⟨by simp [hopt, hpj, hv, hc, hms], by simp [hopt, hpj, hv, hc, hms]⟩
            · cases hsm : sendMail (buildMailOptions env (b.name.getD "") (b.email.getD "")
                  (b.message.getD "") dateStr) with
              | ok u =>
                exact Or.inr ⟨by simp [hopt, hpj, hv, hc, hms, hsm],
                  by simp [hopt, hpj, hv, hc, hms, hsm]⟩
              | error e =>
                exact Or.inr ⟨by simp [hopt, hpj, hv, hc, hms, hsm],
                  by simp [hopt, hpj, hv, hc, hms, hsm]⟩
  refine ⟨?_, ?_, ?_, ?_⟩
  · intro h429
    rcases hexp with h | ⟨_, hne⟩
    · exact h
    · exact absurd h429 hne
  · intro id2 hne
    rcases hexp with h | ⟨h, _⟩
    · rw [h]
    · rw [h, hset st ip now id2 hne]
  · intro h429
    rcases hlam with h | ⟨_, hne⟩
    · exact h
    · exact absurd h429 hne
  · intro id2 hne
    rcases hlam with h | ⟨h, _⟩
    · rw [h]
    · rw [h, hset st event.sourceIp now id2 hne]

/-- C7 witness: a rejected Express request at a concrete map; the map is
unchanged and an unrelated identifier is untouched. -/
theorem C7_witness :
    (expressPost (fun _ => none) (fun _ => true) (fun _ => .ok ()) "d"
        (RateMap.set (fun _ => none) "1.2.3.4" 5) "1.2.3.4" 9000 janeBody).rateMap
      = RateMap.set (fun _ => none) "1.2.3.4" 5
    ∧ (expressPost (fun _ => none) (fun _ => true) (fun _ => .ok ()) "d"
        (RateMap.set (fun _ => none) "1.2.3.4" 5) "1.2.3.4" 9000 janeBody).rateMap "5.6.7.8"
      = (RateMap.set (fun _ => none) "1.2.3.4" 5) "5.6.7.8" :=
  ⟨(C7_reject_frame (fun _ => none) (fun _ => true) (fun _ => .ok ()) "d" (fun _ => .error "x")
      (RateMap.set (fun _ => none) "1.2.3.4" 5) "1.2.3.4" 9000 janeBody
      ⟨"POST", some "x", "9.9.9.9"⟩).1 (by decide),
   (C7_reject_frame (fun _ => none) (fun _ => true) (fun _ => .ok ()) "d" (fun _ => .error "x")
      (RateMap.set (fun _ => none) "1.2.3.4" 5) "1.2.3.4" 9000 janeBody
      ⟨"POST", some "x", "9.9.9.9"⟩).2.1 "5.6.7.8" (by decide)⟩

/-- C8: every Lambda OPTIONS request is answered 200 with the CORS headers
and an empty body, with the rate-limit map unchanged, no transporter
created and no send attempted, whatever the body and environment. -/
theorem C8_options_bypass (env : Env) (parseJson : String → Except String RawBody)
    (sendMail : EmailMessage → Except String Unit) (dateStr : String)
    (event : LambdaEvent) (now : Nat) (st : RateMap)
    (h : event.httpMethod = "OPTIONS") :
    handler env parseJson sendMail dateStr event now st =
      ⟨⟨200, corsHeaders env, .empty⟩, st, 0, []⟩ := by
  unfold handler
  simp [h]

/-- C8 witness: an OPTIONS event against a nonempty map and a failing
parser. -/
theorem C8_witness :
    handler (fun _ => none) (fun _ => .error "x") (fun _ => .ok ()) "d"
        ⟨"OPTIONS", some "whatever", "1.2.3.4"⟩ 7 (fun _ => some 3) =
      ⟨⟨200, corsHeaders (fun _ => none), .empty⟩, (fun _ => some 3), 0, []⟩ :=
  C8_options_bypass _ _ _ _ _ 7 _ rfl

/-- C9, counterexample to the claim as stated: with SMTP_PORT unset (all
other variables set), an otherwise valid admitted submission is answered
500 with the configuration-error message and nothing is dispatched, in
both variants, instead of proceeding on port 587. -/
theorem C9_counterexample :
    (expressPost (fun v => if v = "SMTP_PORT" then none else some "smtp") (fun _ => true)
        (fun _ => .ok ()) "d" (fun _ => none) "1.2.3.4" 42 janeBody).resp =
      ⟨500, .failure "Email service not configured. Please contact the administrator."⟩
    ∧ (expressPost (fun v => if v = "SMTP_PORT" then none else some "smtp") (fun _ => true)
        (fun _ => .ok ()) "d" (fun _ => none) "1.2.3.4" 42 janeBody).sendAttempts = []
    ∧ (handler (fun v => if v = "SMTP_PORT" then none else some "smtp") (fun _ => .ok janeBody)
        (fun _ => .ok ()) "d" ⟨"POST", some "x", "1.2.3.4"⟩ 42 (fun _ => none)).resp.statusCode
      = 500 :=
  ⟨by decide, by decide, by decide⟩

/-- C9 (amended): SMTP_PORT is in the required list, so its absence
short-circuits with the configuration error before dispatch; the 587
default inside createTransporter is what the port field would take, and
TLS-implicit mode is selected exactly when SMTP_PORT equals 465. -/
theorem C9_port_required (env : Env) (emailOk : String → Bool)
    (sendMail : EmailMessage → Except String Unit) (dateStr : String)
    (st : RateMap) (ip : String) (now : Nat) (body : RawBody) (data : ContactData)
    (hport : env "SMTP_PORT" = none)
    (hval : contactSchemaSafeParse emailOk body = some data)
    (hpass : (jsTruthyNum (st ip) && decide (now - (st ip).getD 0 < RATE_LIMIT_WINDOW)) = false) :
    expressPost env emailOk sendMail dateStr st ip now body =
      ⟨⟨500, .failure "Email service not configured. Please contact the administrator."⟩,
        RateMap.set st ip now, 0, []⟩
    ∧ (createTransporter env).port = some 587
    ∧ ∀ env2 : Env, (createTransporter env2).secure = true ↔ env2 "SMTP_PORT" = some "465" := by
  have hpos : 0 < (missingVars env).length := by
    have hm : "SMTP_PORT" ∈ missingVars env := by
      unfold missingVars requiredEnvVars
      simp [List.mem_filter, hport, jsTruthyStr]
    exact List.length_pos_of_mem hm
  refine ⟨?_, ?_, ?_⟩
  · unfold expressPost rateLimitStep
    simp only [hpass, Bool.false_eq_true, if_false]
    unfold contactHandler
    rw [hval]
    simp [hpos]
  · unfold createTransporter
    rw [hport]
    exact (by decide : jsParseInt (jsOr none "587") = some 587)
  · intro env2
    unfold createTransporter
    simp

/-- C9 witness: the Express pipeline at an environment missing only
SMTP_PORT. -/
theorem C9_witness :
    expressPost (fun v => if v = "SMTP_PORT" then none else some "smtp") (fun _ => true)
        (fun _ => .ok ()) "d" (fun _ => none) "1.2.3.4" 42 janeBody =
      ⟨⟨500, .failure "Email service not configured. Please contact the administrator."⟩,
        RateMap.set (fun _ => none) "1.2.3.4" 42, 0, []⟩ :=
  (C9_port_required (fun v => if v = "SMTP_PORT" then none else some "smtp") (fun _ => true)
    (fun _ => .ok ()) "d" (fun _ => none) "1.2.3.4" 42 janeBody
    ⟨"Jane Doe", "jane@example.com", "Hello, this is a test message."⟩
    (by decide) (by decide) (by decide)).1

/-- C10: a non-OPTIONS Lambda event whose body fails to parse is answered
500 with the generic dispatch-failure message and the CORS headers, not a
400, and the rate-limit map is unchanged, nothing created, nothing
sent. -/
theorem C10_bad_json (env : Env) (parseJson : String → Except String RawBody)
    (sendMail : EmailMessage → Except String Unit) (dateStr : String)
    (event : LambdaEvent) (now : Nat) (st : RateMap) (e : String)
    (hm : event.httpMethod ≠ "OPTIONS")
    (hp : parseJson (jsOr event.body "\x7b\x7d") = .error e) :
    handler env parseJson sendMail dateStr event now st =
      ⟨⟨500, corsHeaders env, .json (.failure "Failed to send email. Please try again later.")⟩,
        st, 0, []⟩ := by
  unfold handler
  simp [hm, hp]

/-- C10 witness: a malformed body at a concrete event. -/
theorem C10_witness :
    handler (fun _ => some "v") (fun _ => .error "SyntaxError") (fun _ => .ok ()) "d"
        ⟨"POST", some "not json", "1.2.3.4"⟩ 7 (fun _ => none) =
      ⟨⟨500, corsHeaders (fun _ => some "v"),
          .json (.failure "Failed to send email. Please try again later.")⟩,
        (fun _ => none), 0, []⟩ :=
  C10_bad_json _ _ _ _ _ 7 _ "SyntaxError" (by decide) rfl
